import Mathlib

/-!
Shallow embedding of the two configuration-store variants of the
neurostatslab/pynacollada repository:

* Variant A: src/neurotutorials/settings.py (class Config, key data_path)
* Variant B: src/pynacollada/settings.py (class Config, keys data_dir and
  unique_data_dir, validated by the _validate_conf decorator)

Python values are modelled by the inductive PyVal (strings, PathLike
objects carrying their string representation, integers as a representative
non-string non-dict value, and dictionaries as association lists in
insertion order).  Python dict keys are modelled by PyKey (strings and a
representative non-string hashable key).  Exceptions are modelled by PyErr.
The filesystem is modelled by FileSys: an existence predicate (os.path.exists),
a directory predicate (used only to state spec-side properties; the code never
consults it), and the parsed JSON contents of readable files (json.load).
Mutating operations return the store reached after the call together with
the exception raised, if any, so that partial application is observable.
-/

set_option autoImplicit false

namespace PynaSettings

/-- Python dict keys: strings, or a representative non-string key. -/
inductive PyKey where
  | str (s : String)
  | int (n : Int)
deriving DecidableEq, Repr

/-- Python values appearing in the settings modules: strings, PathLike
objects (carrying the string that str() returns for them), integers as a
representative value that is neither a string nor a dict nor PathLike, and
dictionaries as association lists in insertion order. -/
inductive PyVal where
  | str (s : String)
  | pathLike (s : String)
  | int (n : Int)
  | dict (entries : List (PyKey × PyVal))

/-- Exceptions raised by the settings modules: TypeError, ValueError
(the spec's InvalidConfig covers both), KeyError, and OSError or
FileNotFoundError from file operations (the spec's IOFailure). -/
inductive PyErr where
  | typeError
  | valueError
  | keyError
  | ioError
deriving DecidableEq, Repr

/-- A Python object's __dict__: an association list in insertion order. -/
abbrev Store := List (PyKey × PyVal)

/-- Python dict lookup d[k] (dicts have no duplicate keys, so the first
match is the only match). -/
def lookup : Store → PyKey → Option PyVal
  | [], _ => none
  | (k, v) :: rest, k₀ => if k = k₀ then some v else lookup rest k₀

/-- Python dict item assignment d[k] = v: replace in place if the key is
present, otherwise append (insertion order). -/
def dinsert : Store → PyKey → PyVal → Store
  | [], k₀, v₀ => [(k₀, v₀)]
  | (k, v) :: rest, k₀, v₀ =>
    if k = k₀ then (k, v₀) :: rest else (k, v) :: dinsert rest k₀ v₀

/-- Python dict.update: item-assign each entry of the second dict in order. -/
def dictUpdate (d : Store) : List (PyKey × PyVal) → Store
  | [] => d
  | (k, v) :: rest => dictUpdate (dinsert d k v) rest

/-- The filesystem: which paths exist (os.path.exists), which of them are
directories (never consulted by the code; used to state the spec's
"existing directory" reading), and the parsed JSON contents of readable
files (json.load on an opened path). -/
structure FileSys where
  pathExists : String → Bool
  isDir : String → Bool
  contents : String → Option PyVal

/-- os.path.exists applied to a Python value: strings and PathLike objects
are looked up on the filesystem; anything else raises TypeError.
(os.path.exists also accepts open file descriptors given as int; no code
path of this repository passes an int, and no claim exercises it, so the
int case is modelled as TypeError like the other non-path types.) -/
def osPathExists (fs : FileSys) : PyVal → Except PyErr Bool
  | .str s => .ok (fs.pathExists s)
  | .pathLike s => .ok (fs.pathExists s)
  | _ => .error .typeError

/-! ## Variant A: src/neurotutorials/settings.py -/

/-- Config._validate_conf (Variant A): raise ValueError unless conf is a
dict; then look up conf["data_path"] (KeyError if absent) and raise
ValueError unless os.path.exists on it is true. -/
def validateConfA (fs : FileSys) (conf : PyVal) : Except PyErr Unit :=
  match conf with
  | .dict es =>
    match lookup es (.str "data_path") with
    | none => .error .keyError
    | some v =>
      match osPathExists fs v with
      | .error e => .error e
      | .ok true => .ok ()
      | .ok false => .error .valueError
  | _ => .error .valueError

/-- Config.update (Variant A): run _validate_conf on the submitted value,
then self.__dict__.update(conf).  An exception from validation propagates
before any mutation, so the store component is returned unchanged in that
case. -/
def updateA (fs : FileSys) (st : Store) (conf : PyVal) : Store × Option PyErr :=
  match conf with
  | .dict es =>
    match validateConfA fs conf with
    | .error e => (st, some e)
    | .ok _ => (dictUpdate st es, none)
  | _ => (st, some .valueError)

/-- Config.__setitem__ (Variant A): self.update({key: value}). -/
def setitemA (fs : FileSys) (st : Store) (k : PyKey) (v : PyVal) :
    Store × Option PyErr :=
  updateA fs st (.dict [(k, v)])

/-- Process-wide state of the Config class: whether the class attribute
_instance is set, and the single instance's __dict__.  All references ever
returned by construction alias this one instance, so a mutation through
any reference is a mutation of this store. -/
structure ConfigProc where
  inited : Bool
  store : Store

/-- Config.__new__ (Variant A): if _instance is already set, return it
unchanged.  Otherwise set _instance to a fresh instance (empty __dict__),
then read conf from the file at conf_file when it exists — otherwise take
conf to be the supplied defaults — and run update(conf) on the fresh
instance.  Note _instance is assigned before the update, so the class
stays initialized even when the update raises. -/
def newA (fs : FileSys) (confFile : String) (dfl : List (PyKey × PyVal))
    (p : ConfigProc) : ConfigProc × Option PyErr :=
  if p.inited then (p, none)
  else
    if fs.pathExists confFile then
      match fs.contents confFile with
      | some conf =>
        let r := updateA fs [] conf
        (⟨true, r.1⟩, r.2)
      | none => (⟨true, []⟩, some .ioError)
    else
      let r := updateA fs [] (.dict dfl)
      (⟨true, r.1⟩, r.2)

/-- A sequence of Variant A construction calls, each with its own
conf_file and defaults arguments. -/
def newSeqA (fs : FileSys) (p : ConfigProc) :
    List (String × List (PyKey × PyVal)) → ConfigProc
  | [] => p
  | (cf, dfl) :: rest => newSeqA fs (newA fs cf dfl p).1 rest

/-! ## Variant B: src/pynacollada/settings.py -/

/-- Membership of a dict key in DATA_SETS (the externally supplied set of
recognized dataset names, all strings): a non-string key is never a
member. -/
def keyInSets (ds : List String) : PyKey → Bool
  | .str s => ds.contains s
  | .int _ => false

/-- str() applied to a value by the validator: PathLike objects are
replaced by their string form, everything else is left as is. -/
def normPathVal : PyVal → PyVal
  | .pathLike s => .str s
  | v => v

/-- The loop of _validate_conf over unique_data_dir's items, in order:
raise ValueError when a key is not a recognized dataset name, convert a
PathLike value to its string form, then raise TypeError when the (possibly
converted) value is not a string.  On success, returns the entries as they
are stored. -/
def normUDDEntries (ds : List String) :
    List (PyKey × PyVal) → Except PyErr (List (PyKey × PyVal))
  | [] => .ok []
  | (k, v) :: rest =>
    if keyInSets ds k then
      match normPathVal v with
      | .str s =>
        match normUDDEntries ds rest with
        | .ok r => .ok ((k, .str s) :: r)
        | .error e => .error e
      | _ => .error .typeError
    else .error .valueError

/-- Config.__setitem__ (Variant B), wrapped by _validate_conf: raise
TypeError unless the key is a string; for key "data_dir" convert a
PathLike value to a string and raise TypeError unless the result is a
string; for key "unique_data_dir" raise TypeError unless the value is a
dict and validate its items; any other string key is accepted with any
value.  On success, self.__dict__[key] = value. -/
def setitemB (ds : List String) (st : Store) (k : PyKey) (v : PyVal) :
    Store × Option PyErr :=
  match k with
  | .int _ => (st, some .typeError)
  | .str s =>
    if s = "data_dir" then
      match normPathVal v with
      | .str t => (dinsert st (.str s) (.str t), none)
      | _ => (st, some .typeError)
    else if s = "unique_data_dir" then
      match v with
      | .dict es =>
        match normUDDEntries ds es with
        | .ok es₁ => (dinsert st (.str s) (.dict es₁), none)
        | .error e => (st, some e)
      | _ => (st, some .typeError)
    else (dinsert st (.str s) v, none)

/-- MutableMapping.update on a dict argument (Variant B): item-assign the
argument's entries one at a time, in order, stopping at the first
exception.  Entries before the failing one stay applied. -/
def updateB (ds : List String) (st : Store) :
    List (PyKey × PyVal) → Store × Option PyErr
  | [] => (st, none)
  | (k, v) :: rest =>
    match setitemB ds st k v with
    | (st₁, none) => updateB ds st₁ rest
    | (st₁, some e) => (st₁, some e)

/-- MutableMapping.update applied to an arbitrary Python value (Variant B):
a dict's entries are applied one at a time; a non-mapping, non-iterable
argument raises TypeError without touching the store. -/
def updateBVal (ds : List String) (st : Store) : PyVal → Store × Option PyErr
  | .dict es => updateB ds st es
  | _ => (st, some .typeError)

/-- Config.__getitem__ (Variant B): self.__dict__[key]. -/
def getitemB (st : Store) (k : PyKey) : Option PyVal :=
  lookup st k

/-- The module-level defaults dict of Variant B, parameterized by
DEFAULT_DIR = str(pooch.os_cache("pynacollada")), the externally supplied
platform cache directory. -/
def defaultsB (dd : String) : List (PyKey × PyVal) :=
  [(.str "data_dir", .str dd), (.str "unique_data_dir", .dict [])]

/-- Config.__new__ (Variant B): if _instance is already set, return it
unchanged.  Otherwise set _instance to a fresh instance, update it with
the defaults, and then — when a file exists at conf_file — parse it as
JSON and update with its contents.  _instance is assigned before the
updates, so the class stays initialized even when an update raises. -/
def newB (fs : FileSys) (ds : List String) (confFile : String)
    (dfl : List (PyKey × PyVal)) (p : ConfigProc) : ConfigProc × Option PyErr :=
  if p.inited then (p, none)
  else
    match updateB ds [] dfl with
    | (st₁, some e) => (⟨true, st₁⟩, some e)
    | (st₁, none) =>
      if fs.pathExists confFile then
        match fs.contents confFile with
        | some conf =>
          let r := updateBVal ds st₁ conf
          (⟨true, r.1⟩, r.2)
        | none => (⟨true, st₁⟩, some .ioError)
      else (⟨true, st₁⟩, none)

/-- A sequence of Variant B construction calls, each with its own
conf_file and defaults arguments. -/
def newSeqB (fs : FileSys) (ds : List String) (p : ConfigProc) :
    List (String × List (PyKey × PyVal)) → ConfigProc
  | [] => p
  | (cf, dfl) :: rest => newSeqB fs ds (newB fs ds cf dfl p).1 rest

/-- Is this value representable in the flat JSON schema of the
configuration file (a flat object whose values are scalars or one-level
string-keyed objects of scalars)?  PathLike objects are not JSON
serializable. -/
def flatJsonVal : PyVal → Bool
  | .str _ => true
  | .int _ => true
  | .pathLike _ => false
  | .dict es =>
    es.all fun p =>
      (match p.1 with | .str _ => true | _ => false) &&
      (match p.2 with | .str _ => true | .int _ => true | _ => false)

/-- Is the store's __dict__ serializable by json.dump under the flat
schema (string keys, flat JSON values)? -/
def serializableStore (st : Store) : Bool :=
  st.all fun p =>
    (match p.1 with | .str _ => true | _ => false) && flatJsonVal p.2

/-- Writing a file: the path now exists and its parsed contents are the
written value. -/
def fsWrite (fs : FileSys) (path : String) (v : PyVal) : FileSys :=
  ⟨fun q => q == path || fs.pathExists q, fs.isDir,
   fun q => if q = path then some v else fs.contents q⟩

/-- Config.save (Variant B): json.dump(self.__dict__, f, indent=4) to the
given path, overwriting it.  Modelled for stores within the flat JSON
schema; a store holding a non-serializable value raises TypeError. -/
def saveB (fs : FileSys) (st : Store) (path : String) : FileSys × Option PyErr :=
  if serializableStore st then (fsWrite fs path (.dict st), none)
  else (fs, some .typeError)

/-- Config.load (Variant B): open the file (an absent path raises
FileNotFoundError), json.load it, and self.update the result. -/
def loadB (ds : List String) (fs : FileSys) (st : Store) (path : String) :
    Store × Option PyErr :=
  if fs.pathExists path then
    match fs.contents path with
    | some conf => updateBVal ds st conf
    | none => (st, some .ioError)
  else (st, some .ioError)

/-- Config.reset (Variant B): del self.__dict__ (the instance dict becomes
empty — a fresh empty dict is created on next access) followed by
self.update(defaults).  The previous store contents are discarded
entirely. -/
def resetB (ds : List String) (dd : String) (_st : Store) : Store × Option PyErr :=
  updateB ds [] (defaultsB dd)

/-! ## Verification-side definitions -/

/-- Is the value a plain Python string? -/
def isStrVal : PyVal → Bool
  | .str _ => true
  | _ => false

/-- Entries of a Variant B update on which the per-key validation succeeds
and stores the value exactly as submitted: a string key that is either
"data_dir" with a string value, "unique_data_dir" with a dict value whose
keys are recognized dataset names and whose values are strings, or any
other string key with any value. -/
def cleanEntry (ds : List String) : PyKey × PyVal → Bool
  | (.str s, v) =>
    if s = "data_dir" then isStrVal v
    else if s = "unique_data_dir" then
      match v with
      | .dict es => es.all fun p => keyInSets ds p.1 && isStrVal p.2
      | _ => false
    else true
  | (.int _, _) => false

/-- A valid mapping held by the Variant B store, in the sense of the
spec's data model: every entry passes the variant's validation and is
stored as is, the mapping fits the flat JSON schema, its keys are
distinct (as in any Python dict), and the two schema keys data_dir (a
string) and unique_data_dir (a mapping) are present. -/
def ValidMappingB (ds : List String) (M : Store) : Prop :=
  M.all (cleanEntry ds) = true ∧
  serializableStore M = true ∧
  (M.map Prod.fst).Nodup ∧
  isStrVal ((lookup M (.str "data_dir")).getD (.int 0)) = true ∧
  (match lookup M (.str "unique_data_dir") with
   | some (.dict _) => true
   | _ => false) = true

/-- The update behaviour claim C4 ascribes to Variant A, written from the
claim's own words for comparison with updateA: reject with InvalidConfig
when the input is not a mapping or when the data_path of the fully-merged
candidate state (current mapping overlaid with the submitted entries) does
not name an existing directory; otherwise merge the submitted entries. -/
def updateASpecC4 (fs : FileSys) (st : Store) (conf : PyVal) :
    Store × Option PyErr :=
  match conf with
  | .dict es =>
    match lookup (dictUpdate st es) (.str "data_path") with
    | some (.str s) =>
      if fs.isDir s then (dictUpdate st es, none) else (st, some .valueError)
    | some (.pathLike s) =>
      if fs.isDir s then (dictUpdate st es, none) else (st, some .valueError)
    | _ => (st, some .valueError)
  | _ => (st, some .valueError)

/-- The first-construction behaviour claim C3 ascribes to Variant A,
written from the claim's own words for comparison with newA: start from
all entries of the supplied defaults mapping, then — when the
configuration file exists — apply its entries as a validated update on
top of the defaults. -/
def newAC3Spec (fs : FileSys) (confFile : String)
    (dfl : List (PyKey × PyVal)) : Store × Option PyErr :=
  let st₀ := dictUpdate [] dfl
  if fs.pathExists confFile then
    match fs.contents confFile with
    | some conf => updateA fs st₀ conf
    | none => (st₀, some .ioError)
  else (st₀, none)

/-- The first of two optional values, used to state overlay facts about
dict updates. -/
def firstSome (a b : Option PyVal) : Option PyVal :=
  match a with
  | some v => some v
  | none => b

/-- A filesystem on which no path exists: used to instantiate theorems at
concrete inputs. -/
def fsNone : FileSys :=
  ⟨fun _ => false, fun _ => false, fun _ => none⟩

/-- A filesystem with a configuration file at the Variant A conventional
filename whose contents set data_path to the existing directory "/d". -/
def fsC3 : FileSys :=
  ⟨fun q => q == "nsl_tutorials_conf.json" || q == "/d",
   fun q => q == "/d",
   fun q => if q = "nsl_tutorials_conf.json"
            then some (.dict [(.str "data_path", .str "/d")]) else none⟩

/-- A defaults mapping holding the key "extra" besides data_path. -/
def dflC3 : List (PyKey × PyVal) :=
  [(.str "data_path", .str "/d"), (.str "extra", .str "e")]

/-- A filesystem on which "/f" exists but is not a directory, and "/d"
exists and is a directory. -/
def fsC4 : FileSys :=
  ⟨fun q => q == "/f" || q == "/d", fun q => q == "/d", fun _ => none⟩

/-- A concrete valid Variant B mapping used to instantiate the round-trip
theorem: a data_dir string, a unique_data_dir over the recognized name
"A", and one unrecognized string entry. -/
def MW : Store :=
  [(.str "data_dir", .str "/x"),
   (.str "unique_data_dir", .dict [(.str "A", .str "/a")]),
   (.str "note", .str "hi")]

/-! ## Helper lemmas -/

theorem lookup_dinsert (k₀ : PyKey) (v₀ : PyVal) (k : PyKey) (st : Store) :
    lookup (dinsert st k₀ v₀) k = if k₀ = k then some v₀ else lookup st k := by
  induction st with
  | nil => simp [dinsert, lookup]
  | cons p rest ih =>
    obtain ⟨k₁, v₁⟩ := p
    by_cases h₁ : k₁ = k₀
    · subst h₁
      by_cases h₂ : k₁ = k <;> simp [dinsert, lookup, h₂]
    · by_cases h₂ : k₁ = k
      · subst h₂
        have h₃ : ¬k₀ = k₁ := fun h => h₁ h.symm
        simp [dinsert, lookup, h₁, h₃]
      · simp [dinsert, lookup, h₁, h₂, ih]

theorem lookup_eq_none_of_not_mem (st : Store) (k : PyKey)
    (h : k ∉ st.map Prod.fst) : lookup st k = none := by
  induction st with
  | nil => rfl
  | cons p rest ih =>
    obtain ⟨k₁, v₁⟩ := p
    simp only [List.map_cons, List.mem_cons, not_or] at h
    have h₁ : ¬k₁ = k := fun h' => h.1 (h'.symm)
    simp [lookup, h₁, ih h.2]

theorem lookup_dictUpdate (k : PyKey) :
    ∀ (es : List (PyKey × PyVal)) (st : Store), (es.map Prod.fst).Nodup →
      lookup (dictUpdate st es) k = firstSome (lookup es k) (lookup st k) := by
  intro es
  induction es with
  | nil => intro st _; simp [dictUpdate, lookup, firstSome]
  | cons p rest ih =>
    intro st hnd
    obtain ⟨k₀, v₀⟩ := p
    simp only [List.map_cons, List.nodup_cons] at hnd
    by_cases h : k₀ = k
    · subst h
      have hrest : lookup rest k₀ = none :=
        lookup_eq_none_of_not_mem rest k₀ hnd.1
      simp [dictUpdate, lookup, ih _ hnd.2, lookup_dinsert, hrest, firstSome]
    · simp [dictUpdate, lookup, ih _ hnd.2, lookup_dinsert, h, firstSome]

theorem normUDD_id (ds : List String) :
    ∀ es : List (PyKey × PyVal),
      (∀ p ∈ es, keyInSets ds p.1 = true ∧ isStrVal p.2 = true) →
      normUDDEntries ds es = .ok es := by
  intro es
  induction es with
  | nil => intro _; rfl
  | cons p rest ih =>
    intro h
    obtain ⟨k, v⟩ := p
    obtain ⟨hk, hv⟩ := h (k, v) (List.mem_cons_self _ _)
    match v, hv with
    | .str s, _ =>
      simp [normUDDEntries, hk, normPathVal,
        ih fun q hq => h q (List.mem_cons_of_mem _ hq)]

theorem normUDD_map (ds : List String) :
    ∀ (es es₁ : List (PyKey × PyVal)), normUDDEntries ds es = .ok es₁ →
      es₁ = es.map fun p => (p.1, normPathVal p.2) := by
  intro es
  induction es with
  | nil =>
    intro es₁ h
    simp only [normUDDEntries] at h
    cases h
    rfl
  | cons p rest ih =>
    intro es₁ h
    obtain ⟨k, v⟩ := p
    simp only [normUDDEntries] at h
    by_cases hk : keyInSets ds k = true
    · rw [if_pos hk] at h
      match hnv : normPathVal v with
      | .str s =>
        rw [hnv] at h
        match hr : normUDDEntries ds rest with
        | .ok r =>
          rw [hr] at h
          cases h
          simp [List.map_cons, hnv, ih r hr]
        | .error e => rw [hr] at h; cases h
      | .pathLike s => cases v <;> simp [normPathVal] at hnv
      | .int n => rw [hnv] at h; cases h
      | .dict d => rw [hnv] at h; cases h
    · rw [if_neg hk] at h; cases h

theorem normUDD_ok_iff (ds : List String) :
    ∀ es : List (PyKey × PyVal),
      (∃ r, normUDDEntries ds es = .ok r) ↔
      ∀ p ∈ es, keyInSets ds p.1 = true ∧ isStrVal (normPathVal p.2) = true := by
  intro es
  induction es with
  | nil => simp [normUDDEntries]
  | cons p rest ih =>
    obtain ⟨k, v⟩ := p
    constructor
    · rintro ⟨r, hr⟩
      simp only [normUDDEntries] at hr
      by_cases hk : keyInSets ds k = true
      · rw [if_pos hk] at hr
        match hnv : normPathVal v with
        | .str s =>
          rw [hnv] at hr
          match hrec : normUDDEntries ds rest with
          | .ok r₀ =>
            intro q hq
            rcases List.mem_cons.mp hq with hq | hq
            · subst hq; exact ⟨hk, by simp [hnv, isStrVal]⟩
            · exact (ih.mp ⟨r₀, hrec⟩) q hq
          | .error e => rw [hrec] at hr; cases hr
        | .pathLike s => cases v <;> simp [normPathVal] at hnv
        | .int n => rw [hnv] at hr; cases hr
        | .dict d => rw [hnv] at hr; cases hr
      · rw [if_neg hk] at hr; cases hr
    · intro h
      obtain ⟨hk, hv⟩ := h (k, v) (List.mem_cons_self _ _)
      obtain ⟨r, hr⟩ := ih.mpr fun q hq => h q (List.mem_cons_of_mem _ hq)
      match hnv : normPathVal v, hv with
      | .str s, _ =>
        refine ⟨(k, .str s) :: r, ?_⟩
        simp [normUDDEntries, hk, hnv, hr]

theorem setitemB_clean (ds : List String) (st : Store) (k : PyKey) (v : PyVal)
    (h : cleanEntry ds (k, v) = true) :
    setitemB ds st k v = (dinsert st k v, none) := by
  match k with
  | .int n => simp [cleanEntry] at h
  | .str s =>
    by_cases hdd : s = "data_dir"
    · subst hdd
      simp only [cleanEntry, if_pos rfl] at h
      match v, h with
      | .str t, _ => simp [setitemB, normPathVal]
    · by_cases hu : s = "unique_data_dir"
      · subst hu
        simp only [cleanEntry,
          if_neg (by decide : ¬("unique_data_dir" : String) = "data_dir"),
          if_pos rfl] at h
        match v, h with
        | .dict es, h =>
          have hall : ∀ p ∈ es, keyInSets ds p.1 = true ∧ isStrVal p.2 = true := by
            intro p hp
            have := List.all_eq_true.mp h p hp
            exact ⟨(Bool.and_eq_true _ _).mp this |>.1,
                   (Bool.and_eq_true _ _).mp this |>.2⟩
          simp [setitemB, normUDD_id ds es hall]
      · simp [setitemB, hdd, hu]

theorem updateB_clean (ds : List String) :
    ∀ (es : List (PyKey × PyVal)) (st : Store),
      (∀ p ∈ es, cleanEntry ds p = true) →
      updateB ds st es = (dictUpdate st es, none) := by
  intro es
  induction es with
  | nil => intro st _; rfl
  | cons p rest ih =>
    intro st h
    obtain ⟨k, v⟩ := p
    rw [updateB, setitemB_clean ds st k v (h (k, v) (List.mem_cons_self _ _))]
    exact ih _ fun q hq => h q (List.mem_cons_of_mem _ hq)

theorem updateB_defaults (ds : List String) (dd : String) :
    updateB ds [] (defaultsB dd) = (defaultsB dd, none) := by
  rfl

theorem updateA_err (fs : FileSys) (st : Store) (conf : PyVal)
    (h : (updateA fs st conf).2.isSome = true) : (updateA fs st conf).1 = st := by
  cases conf <;> try rfl
  case dict es =>
    revert h
    unfold updateA
    cases validateConfA fs (.dict es) <;> simp

theorem setitemB_err (ds : List String) (st : Store) (k : PyKey) (v : PyVal)
    (h : (setitemB ds st k v).2.isSome = true) : (setitemB ds st k v).1 = st := by
  cases k with
  | int n => rfl
  | str s =>
    revert h
    by_cases hdd : s = "data_dir"
    · subst hdd
      cases v <;> simp [setitemB, normPathVal]
    · by_cases hu : s = "unique_data_dir"
      · subst hu
        cases v with
        | str t => simp [setitemB]
        | pathLike t => simp [setitemB]
        | int n => simp [setitemB]
        | dict es =>
          cases h : normUDDEntries ds es <;> simp [setitemB, h]
      · simp [setitemB, hdd, hu]

/-! ## Claims -/

/-- Claim C1 (confirmed).  Singleton: once the class is initialized, every
further construction call — whatever its conf_file and defaults arguments
— returns the already-initialized instance with its state unchanged and
raises nothing, for any sequence of such calls, in both variants; and any
construction call, from any state, leaves the class initialized.  All
references returned by construction alias the single instance modelled by
ConfigProc.store, so a mutation through one reference is a mutation of the
store every reference sees. -/
theorem construction_singleton (fs : FileSys) (ds : List String)
    (p : ConfigProc) (h : p.inited = true) :
    (∀ cf dfl, newA fs cf dfl p = (p, none)) ∧
    (∀ cf dfl, newB fs ds cf dfl p = (p, none)) ∧
    (∀ calls, newSeqA fs p calls = p) ∧
    (∀ calls, newSeqB fs ds p calls = p) ∧
    (∀ cf dfl q, ((newA fs cf dfl q).1).inited = true) ∧
    (∀ cf dfl q, ((newB fs ds cf dfl q).1).inited = true) := by
  have hA : ∀ cf dfl, newA fs cf dfl p = (p, none) := by
    intro cf dfl; simp [newA, h]
  have hB : ∀ cf dfl, newB fs ds cf dfl p = (p, none) := by
    intro cf dfl; simp [newB, h]
  refine ⟨hA, hB, ?_, ?_, ?_, ?_⟩
  · intro calls
    induction calls with
    | nil => rfl
    | cons c rest ih =>
      obtain ⟨cf, dfl⟩ := c
      rw [newSeqA, hA cf dfl]
      exact ih
  · intro calls
    induction calls with
    | nil => rfl
    | cons c rest ih =>
      obtain ⟨cf, dfl⟩ := c
      rw [newSeqB, hB cf dfl]
      exact ih
  · intro cf dfl q
    by_cases hq : q.inited
    · simp [newA, hq]
    · unfold newA
      simp only [hq, if_false, Bool.false_eq_true]
      split <;> first | rfl | (split <;> rfl)
  · intro cf dfl q
    by_cases hq : q.inited
    · simp [newB, hq]
    · unfold newB
      simp only [hq, if_false, Bool.false_eq_true]
      split <;> first | rfl | (split <;> first | rfl | (split <;> rfl))

/-- Witness for claim C1: a concrete initialized process state, on which
a further sequence of two construction calls with fresh parameters leaves
the state untouched. -/
theorem construction_singleton_witness :
    newSeqB fsNone ["A"] ⟨true, defaultsB "/cache"⟩
      [("a.json", []), ("b.json", defaultsB "/other")] = ⟨true, defaultsB "/cache"⟩ :=
  (construction_singleton fsNone ["A"] ⟨true, defaultsB "/cache"⟩ rfl).2.2.2.1
    [("a.json", []), ("b.json", defaultsB "/other")]

/-- Claim C2 counterexample.  In Variant B, update({"data_dir": "/new",
"unique_data_dir": 0}) raises TypeError on the second entry, yet the
first entry has already been applied: data_dir reads "/new" after the
failed call where it read "/cache" before, so the store's mapping is not
identical before and after the erroring call. -/
theorem update_atomicity_cex :
    (updateB ["A"] (defaultsB "/cache")
      [(.str "data_dir", .str "/new"), (.str "unique_data_dir", .int 0)]).2
        = some .typeError ∧
    lookup (updateB ["A"] (defaultsB "/cache")
      [(.str "data_dir", .str "/new"), (.str "unique_data_dir", .int 0)]).1
        (.str "data_dir") = some (.str "/new") ∧
    lookup (defaultsB "/cache") (.str "data_dir") = some (.str "/cache") ∧
    (updateB ["A"] (defaultsB "/cache")
      [(.str "data_dir", .str "/new"), (.str "unique_data_dir", .int 0)]).1
        ≠ defaultsB "/cache" := by
  refine ⟨rfl, rfl, rfl, fun h => ?_⟩
  have h₁ := congrArg (fun t => lookup t (PyKey.str "data_dir")) h
  simp only at h₁
  rw [show lookup (updateB ["A"] (defaultsB "/cache")
      [(.str "data_dir", .str "/new"), (.str "unique_data_dir", .int 0)]).1
      (.str "data_dir") = some (.str "/new") from rfl] at h₁
  rw [show lookup (defaultsB "/cache") (.str "data_dir")
      = some (.str "/cache") from rfl] at h₁
  exact absurd (PyVal.str.inj (Option.some.inj h₁)) (by decide)

/-- Claim C2 (amended).  In Variant A, any erroring call to update — and
hence to set or item assignment, which delegate to update — leaves the
store unchanged, because validation runs before the single mutation.  In
Variant B, any erroring item assignment (and hence set, and any
single-entry update) leaves the store unchanged; a multi-entry Variant B
update, however, applies entries one at a time and stops at the first
error, so the entries before the failing one stay applied (see the
counterexample). -/
theorem rejected_update_unchanged (fs : FileSys) (ds : List String)
    (st : Store) (conf : PyVal) (k : PyKey) (v : PyVal) :
    ((updateA fs st conf).2.isSome = true → (updateA fs st conf).1 = st) ∧
    ((setitemA fs st k v).2.isSome = true → (setitemA fs st k v).1 = st) ∧
    ((setitemB ds st k v).2.isSome = true → (setitemB ds st k v).1 = st) ∧
    ((updateB ds st [(k, v)]).2.isSome = true → (updateB ds st [(k, v)]).1 = st) := by
  refine ⟨updateA_err fs st conf, updateA_err fs st (.dict [(k, v)]),
    setitemB_err ds st k v, ?_⟩
  rcases hs : setitemB ds st k v with ⟨st₁, e⟩
  cases e with
  | none =>
    intro h
    rw [updateB, hs] at h
    simp [updateB] at h
  | some e₀ =>
    intro _
    rw [updateB, hs]
    have h₁ := setitemB_err ds st k v (by rw [hs]; rfl)
    rw [hs] at h₁
    exact h₁

/-- Witness for claim C2: a rejected Variant A update (nonexistent
data_path) and a rejected Variant B item assignment (non-dict
unique_data_dir) each leave a concrete store unchanged. -/
theorem rejected_update_unchanged_witness :
    (updateA fsNone [(.str "data_path", .str "/d")]
      (.dict [(.str "data_path", .str "/missing")])).1
      = [(.str "data_path", .str "/d")] ∧
    (setitemB ["A"] (defaultsB "/cache") (.str "unique_data_dir") (.int 7)).1
      = defaultsB "/cache" := by
  have h := rejected_update_unchanged fsNone ["A"]
    [(.str "data_path", .str "/d")]
    (.dict [(.str "data_path", .str "/missing")])
    (.str "unique_data_dir") (.int 7)
  have h₂ := rejected_update_unchanged fsNone ["A"] (defaultsB "/cache")
    (.dict []) (.str "unique_data_dir") (.int 7)
  exact ⟨h.1 rfl, h₂.2.2.1 rfl⟩

/-- Claim C3 counterexample.  In Variant A, with a configuration file
present and a defaults mapping holding an extra entry, first construction
succeeds but the extra default entry is absent from the store: the file's
entries replace the defaults entirely rather than overlaying them, while
the claim's construction (newAC3Spec, written from the spec's words)
retains it. -/
theorem construction_defaults_overlay_cex :
    fsC3.pathExists "nsl_tutorials_conf.json" = true ∧
    lookup dflC3 (.str "extra") = some (.str "e") ∧
    (newA fsC3 "nsl_tutorials_conf.json" dflC3 ⟨false, []⟩).2 = none ∧
    lookup (newA fsC3 "nsl_tutorials_conf.json" dflC3 ⟨false, []⟩).1.store
      (.str "extra") = none ∧
    lookup (newAC3Spec fsC3 "nsl_tutorials_conf.json" dflC3).1
      (.str "extra") = some (.str "e") :=
  ⟨rfl, rfl, rfl, rfl, rfl⟩

theorem updateA_ok (fs : FileSys) (st : Store) (es : List (PyKey × PyVal))
    (h : (updateA fs st (.dict es)).2 = none) :
    (updateA fs st (.dict es)).1 = dictUpdate st es := by
  revert h
  unfold updateA
  cases validateConfA fs (.dict es) <;> simp

/-- Claim C3 (amended).  On first construction, Variant B populates the
store as the claim states: all entries of the supplied defaults first,
then — when the configuration file exists — the file's entries applied
as a validated update on top, so file entries overlay defaults and
defaults for keys absent from the file are retained.  Variant A instead
treats the file and the defaults as alternatives: when the file exists
the store is populated from the file's entries alone and the supplied
defaults are ignored entirely; the defaults are applied only when no
file exists. -/
theorem construction_contract_amended (fs : FileSys) (ds : List String)
    (cf : String) (dfl dfl' E : List (PyKey × PyVal)) :
    (fs.pathExists cf = true →
      newA fs cf dfl ⟨false, []⟩ = newA fs cf dfl' ⟨false, []⟩) ∧
    (fs.pathExists cf = true → fs.contents cf = some (.dict E) →
      (E.map Prod.fst).Nodup →
      (newA fs cf dfl ⟨false, []⟩).2 = none →
      ∀ k, lookup (newA fs cf dfl ⟨false, []⟩).1.store k = lookup E k) ∧
    (fs.pathExists cf = false →
      (dfl.map Prod.fst).Nodup →
      (newA fs cf dfl ⟨false, []⟩).2 = none →
      ∀ k, lookup (newA fs cf dfl ⟨false, []⟩).1.store k = lookup dfl k) ∧
    (fs.pathExists cf = true → fs.contents cf = some (.dict E) →
      (∀ p ∈ dfl, cleanEntry ds p = true) → (∀ p ∈ E, cleanEntry ds p = true) →
      (dfl.map Prod.fst).Nodup → (E.map Prod.fst).Nodup →
      (newB fs ds cf dfl ⟨false, []⟩).2 = none ∧
      ∀ k, lookup (newB fs ds cf dfl ⟨false, []⟩).1.store k
        = firstSome (lookup E k) (lookup dfl k)) := by
  refine ⟨?_, ?_, ?_, ?_⟩
  · intro h
    simp [newA, h]
  · intro h hc hnd herr k
    rw [newA] at herr ⊢
    simp only [h, hc, if_true, if_false, Bool.false_eq_true] at herr ⊢
    rw [updateA_ok fs [] E herr]
    rw [lookup_dictUpdate k E [] hnd]
    cases lookup E k <;> rfl
  · intro h hnd herr k
    rw [newA] at herr ⊢
    simp only [h, if_true, if_false, Bool.false_eq_true] at herr ⊢
    rw [updateA_ok fs [] dfl herr]
    rw [lookup_dictUpdate k dfl [] hnd]
    cases lookup dfl k <;> rfl
  · intro h hc hdfl hE hnd hndE
    have h₁ : updateB ds [] dfl = (dictUpdate [] dfl, none) :=
      updateB_clean ds dfl [] hdfl
    have h₂ : updateB ds (dictUpdate [] dfl) E
        = (dictUpdate (dictUpdate [] dfl) E, none) :=
      updateB_clean ds E (dictUpdate [] dfl) hE
    have hres : newB fs ds cf dfl ⟨false, []⟩
        = (⟨true, dictUpdate (dictUpdate [] dfl) E⟩, none) := by
      rw [newB]
      simp only [if_false, Bool.false_eq_true, h₁, h, hc, if_true]
      simp [updateBVal, h₂]
    refine ⟨by rw [hres], ?_⟩
    intro k
    rw [hres]
    show lookup (dictUpdate (dictUpdate [] dfl) E) k
      = firstSome (lookup E k) (lookup dfl k)
    rw [lookup_dictUpdate k E _ hndE, lookup_dictUpdate k dfl [] hnd]
    cases lookup E k with
    | some v => rfl
    | none => cases lookup dfl k <;> rfl

/-- Witness for claim C3 (amended): concrete first constructions — a
Variant B construction overlaying a file entry on top of the defaults,
retaining the default data_dir, and a Variant A construction taking the
file's data_path. -/
theorem construction_contract_amended_witness :
    (newB fsC3 ["A"] "nsl_tutorials_conf.json" (defaultsB "/cache")
      ⟨false, []⟩).2 = none ∧
    lookup (newB fsC3 ["A"] "nsl_tutorials_conf.json" (defaultsB "/cache")
      ⟨false, []⟩).1.store (.str "data_dir") = some (.str "/cache") ∧
    lookup (newB fsC3 ["A"] "nsl_tutorials_conf.json" (defaultsB "/cache")
      ⟨false, []⟩).1.store (.str "data_path") = some (.str "/d") ∧
    lookup (newA fsC3 "nsl_tutorials_conf.json" dflC3 ⟨false, []⟩).1.store
      (.str "data_path") = some (.str "/d") := by
  have hB := (construction_contract_amended fsC3 ["A"]
    "nsl_tutorials_conf.json" (defaultsB "/cache") []
    [(.str "data_path", .str "/d")]).2.2.2
    rfl rfl (by decide) (by decide) (by decide) (by decide)
  have hA := (construction_contract_amended fsC3 ["A"]
    "nsl_tutorials_conf.json" dflC3 []
    [(.str "data_path", .str "/d")]).2.1
    rfl rfl (by decide) rfl
  refine ⟨hB.1, ?_, ?_, ?_⟩
  · rw [hB.2 (.str "data_dir")]; rfl
  · rw [hB.2 (.str "data_path")]; rfl
  · rw [hA (.str "data_path")]; rfl

/-- Claim C4 counterexample.  Variant A's update does not validate the
fully-merged candidate state and does not test for directories.  At the
concrete inputs: (i) update({}) on a store whose data_path "/d" is an
existing directory raises KeyError although the merged candidate's
data_path names an existing directory, where the claim's behaviour
(updateASpecC4) succeeds; (ii) update({"data_path": "/f"}) succeeds
although "/f" is an existing non-directory, where the claim's behaviour
rejects. -/
theorem updateA_merged_validation_cex :
    fsC4.isDir "/d" = true ∧
    lookup (dictUpdate [(.str "data_path", .str "/d")] []) (.str "data_path")
      = some (.str "/d") ∧
    updateASpecC4 fsC4 [(.str "data_path", .str "/d")] (.dict [])
      = ([(.str "data_path", .str "/d")], none) ∧
    updateA fsC4 [(.str "data_path", .str "/d")] (.dict [])
      = ([(.str "data_path", .str "/d")], some .keyError) ∧
    fsC4.pathExists "/f" = true ∧
    fsC4.isDir "/f" = false ∧
    updateA fsC4 [] (.dict [(.str "data_path", .str "/f")])
      = ([(.str "data_path", .str "/f")], none) ∧
    updateASpecC4 fsC4 [] (.dict [(.str "data_path", .str "/f")])
      = ([], some .valueError) :=
  ⟨rfl, rfl, rfl, rfl, rfl, rfl, rfl, rfl⟩

/-- Claim C4 (amended).  Variant A's update rejects the whole update with
InvalidConfig (ValueError) when the input is not a dict; a dict input is
validated before any mutation against the submitted mapping only: its
"data_path" entry must be present (KeyError otherwise) and must name a
path that exists on the filesystem (os.path.exists — any existing path,
not specifically a directory; ValueError otherwise); when the submitted
mapping contains data_path this coincides with the merged candidate's
data_path, and on success all submitted entries are merged into the
store. -/
theorem updateA_validation_amended (fs : FileSys) (st : Store)
    (es : List (PyKey × PyVal)) (s : String) :
    (∀ n : Int, updateA fs st (.int n) = (st, some .valueError)) ∧
    (∀ t : String, updateA fs st (.str t) = (st, some .valueError)) ∧
    (∀ t : String, updateA fs st (.pathLike t) = (st, some .valueError)) ∧
    (lookup es (.str "data_path") = none →
      updateA fs st (.dict es) = (st, some .keyError)) ∧
    (lookup es (.str "data_path") = some (.str s) → fs.pathExists s = true →
      updateA fs st (.dict es) = (dictUpdate st es, none)) ∧
    (lookup es (.str "data_path") = some (.str s) → fs.pathExists s = false →
      updateA fs st (.dict es) = (st, some .valueError)) := by
  refine ⟨fun n => rfl, fun t => rfl, fun t => rfl, ?_, ?_, ?_⟩
  · intro h
    simp [updateA, validateConfA, h]
  · intro h₁ h₂
    simp [updateA, validateConfA, h₁, osPathExists, h₂]
  · intro h₁ h₂
    simp [updateA, validateConfA, h₁, osPathExists, h₂]

/-- Witness for claim C4 (amended): concrete accepted and rejected
Variant A updates — an existing data_path is accepted and merged, a
nonexistent one is rejected with ValueError, a missing one with
KeyError. -/
theorem updateA_validation_amended_witness :
    updateA fsC4 [] (.dict [(.str "data_path", .str "/d")])
      = ([(.str "data_path", .str "/d")], none) ∧
    updateA fsC4 [] (.dict [(.str "data_path", .str "/missing")])
      = ([], some .valueError) ∧
    updateA fsC4 [] (.dict []) = ([], some .keyError) := by
  have h₁ := (updateA_validation_amended fsC4 []
    [(.str "data_path", .str "/d")] "/d").2.2.2.2.1 rfl rfl
  have h₂ := (updateA_validation_amended fsC4 []
    [(.str "data_path", .str "/missing")] "/missing").2.2.2.2.2 rfl rfl
  have h₃ := (updateA_validation_amended fsC4 [] [] "x").2.2.2.1 rfl
  exact ⟨h₁, h₂, h₃⟩

/-- Claim C9 (confirmed).  Every Variant A update whose argument is a
dict without the key "data_path" fails with KeyError — not with
ValueError (InvalidConfig) and not successfully — whatever the current
store and filesystem, and the store is unchanged; in particular
update({}) always fails this way. -/
theorem updateA_missing_data_path (fs : FileSys) (st : Store)
    (es : List (PyKey × PyVal)) (h : lookup es (.str "data_path") = none) :
    updateA fs st (.dict es) = (st, some .keyError) ∧
    updateA fs st (.dict []) = (st, some .keyError) := by
  constructor
  · simp [updateA, validateConfA, h]
  · rfl

/-- Witness for claim C9: update({"other": "x"}) raises KeyError and
leaves the store unchanged even though the store's existing data_path
"/d" is an existing directory on this filesystem. -/
theorem updateA_missing_data_path_witness :
    updateA fsC4 [(.str "data_path", .str "/d")]
      (.dict [(.str "other", .str "x")])
      = ([(.str "data_path", .str "/d")], some .keyError) :=
  (updateA_missing_data_path fsC4 [(.str "data_path", .str "/d")]
    [(.str "other", .str "x")] rfl).1

/-- Claim C5 (confirmed).  A Variant B update submitting unique_data_dir
fails (with TypeError or ValueError, the spec's InvalidConfig) if and only
if the submitted value is not a mapping, or some key of it is not a
recognized dataset name (a non-string key never is), or some value of it
is neither a string nor a PathLike value; in particular, with recognized
names ["A", "B"], update({"unique_data_dir": {"C": "/tmp"}}) fails with
ValueError and leaves the store unchanged. -/
theorem udd_validation (ds : List String) (st : Store) :
    (∀ es : List (PyKey × PyVal),
      (setitemB ds st (.str "unique_data_dir") (.dict es)).2.isSome = true ↔
      ∃ p ∈ es, keyInSets ds p.1 = false ∨ isStrVal (normPathVal p.2) = false) ∧
    (∀ n : Int, setitemB ds st (.str "unique_data_dir") (.int n)
      = (st, some .typeError)) ∧
    (∀ s : String, setitemB ds st (.str "unique_data_dir") (.str s)
      = (st, some .typeError)) ∧
    (∀ s : String, setitemB ds st (.str "unique_data_dir") (.pathLike s)
      = (st, some .typeError)) ∧
    updateB ["A", "B"] (defaultsB "/cache")
      [(.str "unique_data_dir", .dict [(.str "C", .str "/tmp")])]
      = (defaultsB "/cache", some .valueError) := by
  refine ⟨?_, fun n => rfl, fun s => rfl, fun s => rfl, rfl⟩
  intro es
  rw [show setitemB ds st (.str "unique_data_dir") (.dict es)
      = (match normUDDEntries ds es with
         | .ok es₁ => (dinsert st (.str "unique_data_dir") (.dict es₁), none)
         | .error e => (st, some e)) from rfl]
  cases h : normUDDEntries ds es with
  | ok r =>
    constructor
    · intro hfalse
      exact absurd hfalse (by simp)
    · rintro ⟨p, hp, hbad⟩
      have hall := (normUDD_ok_iff ds es).mp ⟨r, h⟩ p hp
      rcases hbad with hb | hb
      · rw [hall.1] at hb; cases hb
      · rw [hall.2] at hb; cases hb
  | error e =>
    constructor
    · intro _
      by_contra hno
      push_neg at hno
      have hok : ∃ r, normUDDEntries ds es = .ok r := by
        apply (normUDD_ok_iff ds es).mpr
        intro p hp
        simpa using hno p hp
      rcases hok with ⟨r, hr⟩
      rw [h] at hr
      cases hr
    · intro _
      rfl

/-- Claim C7 (confirmed).  Variant B path normalization: setting data_dir
to a PathLike value succeeds and stores its string form, so a subsequent
lookup of "data_dir" returns that plain string; and a successful
unique_data_dir validation stores the submitted entries with the same
str() normalization applied to every PathLike value. -/
theorem path_normalization (ds : List String) (st : Store) (s : String)
    (es es₁ : List (PyKey × PyVal))
    (h : normUDDEntries ds es = .ok es₁) :
    setitemB ds st (.str "data_dir") (.pathLike s)
      = (dinsert st (.str "data_dir") (.str s), none) ∧
    lookup (setitemB ds st (.str "data_dir") (.pathLike s)).1 (.str "data_dir")
      = some (.str s) ∧
    es₁ = (es.map fun p => (p.1, normPathVal p.2)) ∧
    setitemB ds st (.str "unique_data_dir") (.dict es)
      = (dinsert st (.str "unique_data_dir") (.dict es₁), none) := by
  refine ⟨rfl, ?_, normUDD_map ds es es₁ h, ?_⟩
  · rw [show (setitemB ds st (.str "data_dir") (.pathLike s)).1
        = dinsert st (.str "data_dir") (.str s) from rfl]
    rw [lookup_dinsert]
    simp
  · simp [setitemB, h]

/-- Witness for claim C7: concrete PathLike values stored in string form
under data_dir and inside unique_data_dir. -/
theorem path_normalization_witness :
    lookup (setitemB ["A"] (defaultsB "/cache") (.str "data_dir")
      (.pathLike "/q")).1 (.str "data_dir") = some (.str "/q") ∧
    setitemB ["A"] (defaultsB "/cache") (.str "unique_data_dir")
      (.dict [(.str "A", .pathLike "/pa")])
      = (dinsert (defaultsB "/cache") (.str "unique_data_dir")
          (.dict [(.str "A", .str "/pa")]), none) := by
  have h := path_normalization ["A"] (defaultsB "/cache") "/q"
    [(.str "A", .pathLike "/pa")] [(.str "A", .str "/pa")] rfl
  exact ⟨h.2.1, h.2.2.2⟩

/-- Claim C8 (confirmed).  Variant B reset: from any store state — in
particular after any sequence of successful updates — reset() discards
every current entry and leaves the mapping deeply equal to the original
defaults mapping: the default cache directory under data_dir and an empty
unique_data_dir, and nothing else.  (In the code the reinstallation of
the defaults runs through the validating item assignment, which the
defaults always pass, so the observable result is as the claim states.) -/
theorem reset_restores_defaults (ds : List String) (dd : String) (st : Store) :
    resetB ds dd st = (defaultsB dd, none) ∧
    lookup (resetB ds dd st).1 (.str "data_dir") = some (.str dd) ∧
    lookup (resetB ds dd st).1 (.str "unique_data_dir") = some (.dict []) := by
  have h : resetB ds dd st = (defaultsB dd, none) := updateB_defaults ds dd
  refine ⟨h, ?_, ?_⟩ <;> rw [h] <;> rfl

/-- Claim C10 (confirmed).  Variant B item assignment rejects every
non-string key with TypeError before any mutation, and accepts any string
key other than "data_dir" and "unique_data_dir" with any value whatsoever,
storing the value exactly as given with no validation or normalization. -/
theorem setitem_unrecognized_keys (ds : List String) (st : Store)
    (n : Int) (v : PyVal) (s : String)
    (h₁ : s ≠ "data_dir") (h₂ : s ≠ "unique_data_dir") :
    setitemB ds st (.int n) v = (st, some .typeError) ∧
    setitemB ds st (.str s) v = (dinsert st (.str s) v, none) := by
  refine ⟨rfl, ?_⟩
  simp [setitemB, h₁, h₂]

/-- Witness for claim C10: a non-string key is rejected with the store
unchanged, and a PathLike value under the unrecognized key "note" is
stored as given, without normalization to a string. -/
theorem setitem_unrecognized_keys_witness :
    setitemB ["A"] (defaultsB "/cache") (.int 3) (.str "x")
      = (defaultsB "/cache", some .typeError) ∧
    setitemB ["A"] (defaultsB "/cache") (.str "note") (.pathLike "/p")
      = (dinsert (defaultsB "/cache") (.str "note") (.pathLike "/p"), none) := by
  have h₁ := setitem_unrecognized_keys ["A"] (defaultsB "/cache") 3
    (.str "x") "note" (by decide) (by decide)
  have h₂ := setitem_unrecognized_keys ["A"] (defaultsB "/cache") 3
    (.pathLike "/p") "note" (by decide) (by decide)
  exact ⟨h₁.1, h₂.2⟩

/-- Claim C6 (confirmed).  Round-trip fidelity: for every valid mapping M
held by the Variant B store (ValidMappingB: validated entries, flat JSON
schema, distinct keys, both schema keys present), save(path) succeeds and
writes a flat JSON object mirroring M exactly; a fresh store constructed
in a process whose working directory holds no local configuration file
initializes to the defaults without error, and load(path) on it succeeds
and leaves the observable mapping equal to M at every key. -/
theorem round_trip (ds : List String) (dd : String) (M : Store)
    (path cf : String) (fs : FileSys)
    (hM : ValidMappingB ds M) (hcf : fs.pathExists cf = false)
    (hne : cf ≠ path) :
    (saveB fs M path).2 = none ∧
    (saveB fs M path).1.contents path = some (.dict M) ∧
    newB (saveB fs M path).1 ds cf (defaultsB dd) ⟨false, []⟩
      = (⟨true, defaultsB dd⟩, none) ∧
    (loadB ds (saveB fs M path).1 (defaultsB dd) path).2 = none ∧
    ∀ k, lookup (loadB ds (saveB fs M path).1 (defaultsB dd) path).1 k
      = lookup M k := by
  obtain ⟨hall, hser, hnd, hdd, hudd⟩ := hM
  have hsave : saveB fs M path = (fsWrite fs path (.dict M), none) := by
    simp [saveB, hser]
  have hcont : (saveB fs M path).1.contents path = some (.dict M) := by
    rw [hsave]
    simp [fsWrite]
  have hpe : ∀ q, (saveB fs M path).1.pathExists q
      = (q == path || fs.pathExists q) := by
    intro q
    rw [hsave]
    rfl
  have hcf₁ : (saveB fs M path).1.pathExists cf = false := by
    rw [hpe]
    simp [hcf, hne]
  have hnew : newB (saveB fs M path).1 ds cf (defaultsB dd) ⟨false, []⟩
      = (⟨true, defaultsB dd⟩, none) := by
    rw [newB]
    simp only [Bool.false_eq_true, if_false, updateB_defaults, hcf₁]
  have hclean : ∀ p ∈ M, cleanEntry ds p = true := List.all_eq_true.mp hall
  have hload : loadB ds (saveB fs M path).1 (defaultsB dd) path
      = (dictUpdate (defaultsB dd) M, none) := by
    rw [loadB, hpe path]
    simp only [beq_self_eq_true, Bool.true_or, if_true]
    rw [hcont]
    exact updateB_clean ds M (defaultsB dd) hclean
  refine ⟨by rw [hsave], hcont, hnew, by rw [hload], ?_⟩
  intro k
  rw [hload]
  show lookup (dictUpdate (defaultsB dd) M) k = lookup M k
  rw [lookup_dictUpdate k M _ hnd]
  cases hMk : lookup M k with
  | some v => rfl
  | none =>
    by_cases hk₁ : (PyKey.str "data_dir") = k
    · rw [← hk₁] at hMk
      rw [hMk] at hdd
      simp [isStrVal] at hdd
    · by_cases hk₂ : (PyKey.str "unique_data_dir") = k
      · rw [← hk₂] at hMk
        rw [hMk] at hudd
        simp at hudd
      · simp [defaultsB, lookup, hk₁, hk₂, firstSome]

/-- Witness for claim C6: the concrete valid mapping MW, saved to a file
and loaded by a freshly constructed store, reads back equal to MW at its
three keys. -/
theorem round_trip_witness :
    (loadB ["A"] (saveB fsNone MW "/conf/out.json").1 (defaultsB "/cache")
      "/conf/out.json").2 = none ∧
    lookup (loadB ["A"] (saveB fsNone MW "/conf/out.json").1
      (defaultsB "/cache") "/conf/out.json").1 (.str "data_dir")
      = some (.str "/x") ∧
    lookup (loadB ["A"] (saveB fsNone MW "/conf/out.json").1
      (defaultsB "/cache") "/conf/out.json").1 (.str "unique_data_dir")
      = some (.dict [(.str "A", .str "/a")]) ∧
    lookup (loadB ["A"] (saveB fsNone MW "/conf/out.json").1
      (defaultsB "/cache") "/conf/out.json").1 (.str "note")
      = some (.str "hi") := by
  have h := round_trip ["A"] "/cache" MW "/conf/out.json"
    "pynacollada_conf.json" fsNone
    (by unfold ValidMappingB; refine ⟨by decide, by decide, by decide,
      by decide, by decide⟩)
    rfl (by decide)
  refine ⟨h.2.2.2.1, ?_, ?_, ?_⟩
  · rw [h.2.2.2.2 (.str "data_dir")]
    rfl
  · rw [h.2.2.2.2 (.str "unique_data_dir")]
    rfl
  · rw [h.2.2.2.2 (.str "note")]
    rfl

end PynaSettings
